import Mathlib

/-!
# Verification of the gemini-chatbot core (`src/chat.py`, `src/document_loader.py`)

A shallow embedding of the two core components of the repository:

* `GeminiChat` (src/chat.py): an in-memory, insertion-ordered document
  collection (a Python `dict[str, str]`, modelled as an association list with
  Python-dict insert/delete semantics) plus the `generate` method that builds
  a prompt from the documents and a query and delegates to the external
  Gemini model client.  The model client (`self.model.generate_content`
  followed by the `.text` accessor) is an external collaborator and is
  modelled as a function `String → Except String String` (`Except.error e`
  standing for a raised exception with message `str(e)`).  `generate_traced`
  additionally records the list of prompts passed to the collaborator, so
  that "no external call is made" is expressible.

* `DocumentLoader` (src/document_loader.py): dispatch over source kind
  (URL string / byte sequence / filesystem-path string / anything else) and
  file extension, with the library collaborators (Python codecs, PyPDF2,
  pandas, requests, BeautifulSoup, the filesystem) passed in as a `Libs`
  record of functions, exactly at the call sites where the Python code
  invokes them.

Set-up credentials (`genai.configure`, the model name) have no behavioural
content for the verified properties and are omitted from the state.
-/

set_option autoImplicit false

namespace GeminiBot

/-- A byte, as Python `bytes` elements: we use `Nat` (values < 256 in any
real input; no arithmetic is performed on them so no masking is needed). -/
abbrev Byte := Nat

/-! ## Python `dict[str, str]` as an insertion-ordered association list -/

/-- Python dict assignment `d[k] = v`: if `k` is present, replace its value
in place (insertion position kept); otherwise append the binding at the end. -/
def dictInsert (k v : String) : List (String × String) → List (String × String)
  | [] => [(k, v)]
  | (k', v') :: rest =>
    if k' = k then (k', v) :: rest else (k', v') :: dictInsert k v rest

/-- Python dict deletion `del d[k]` (for the unique occurrence of `k`):
removes the first binding of `k`, keeps everything else in order. -/
def dictRemove (k : String) : List (String × String) → List (String × String)
  | [] => []
  | (k', v') :: rest =>
    if k' = k then rest else (k', v') :: dictRemove k rest

/-- Python dict lookup `d.get(k)`. -/
def dictGet (k : String) : List (String × String) → Option String
  | [] => none
  | (k', v') :: rest => if k' = k then some v' else dictGet k rest

/-! ## `GeminiChat` (src/chat.py) -/

/-- The mutable state of a `GeminiChat` instance: `self.documents`,
a `dict[str, str]` mapping filename to extracted content. -/
structure GeminiChat where
  documents : List (String × String)
deriving DecidableEq

namespace GeminiChat

/-- Method `GeminiChat.add_document`: `self.documents[filename] = content`. -/
def add_document (c : GeminiChat) (filename content : String) : GeminiChat :=
  ⟨dictInsert filename content c.documents⟩

/-- Method `GeminiChat.remove_document`: `if filename in self.documents: del ...`. -/
def remove_document (c : GeminiChat) (filename : String) : GeminiChat :=
  ⟨dictRemove filename c.documents⟩

/-- Method `GeminiChat.clear_documents`. -/
def clear_documents (_c : GeminiChat) : GeminiChat := ⟨[]⟩

/-- Method `GeminiChat.get_document_list`: `list(self.documents.keys())`. -/
def get_document_list (c : GeminiChat) : List String :=
  c.documents.map Prod.fst

end GeminiChat

/-! ## Prompt assembly and `generate` -/

/-- Python `sep.join(parts)`. -/
def joinSep (sep : String) : List String → String
  | [] => ""
  | [x] => x
  | x :: y :: rest => x ++ sep ++ joinSep sep (y :: rest)

/-- The guidance string returned when no documents are loaded
(src/chat.py line 55). -/
def no_docs_message : String :=
  "ドキュメントがアップロードされていません。サイドバーからファイルをアップロードしてください。"

/-- One element of `context_parts`: `f"=== {filename} ===\n{content}"`. -/
def section_of (d : String × String) : String :=
  "=== " ++ d.1 ++ " ===\n" ++ d.2

/-- The `context_parts` list built by the loop in `generate`. -/
def context_parts (docs : List (String × String)) : List String :=
  docs.map section_of

/-- The fixed text of the prompt f-string before the `{context}` hole. -/
def prompt_head : String :=
  "あなたは親切で知識豊富なアシスタントです。\n以下のドキュメントの内容を参考に、ユーザーの質問に日本語で回答してください。\n\n## ルール\n- ドキュメントの内容に基づいて正確に回答してください\n- ドキュメントに情報がない場合は、その旨を伝えてください\n- 回答は分かりやすく、簡潔にしてください\n- 必要に応じて箇条書きや見出しを使ってください\n\n## ドキュメント\n"

/-- The fixed text of the prompt f-string between `{context}` and `{query}`. -/
def prompt_mid : String := "\n\n## ユーザーの質問\n"

/-- The fixed text of the prompt f-string after `{query}`. -/
def prompt_tail : String := "\n\n## 回答"

/-- The prompt f-string of `generate`, with `context` and `query` filled in. -/
def build_prompt (context query : String) : String :=
  prompt_head ++ context ++ prompt_mid ++ query ++ prompt_tail

/-- The complete prompt `generate` builds from a session state and a query
(only used when the document collection is non-empty). -/
def prompt_of (c : GeminiChat) (query : String) : String :=
  build_prompt (joinSep "\n\n" (context_parts c.documents)) query

/-- The prefix of the in-band error answer: `f"エラーが発生しました: {str(e)}"`. -/
def error_answer (e : String) : String := "エラーが発生しました: " ++ e

/-- Method `GeminiChat.generate`, instrumented: the model collaborator
(`self.model.generate_content` + the `response.text` accessor) is the
function argument `model`; the second component of the result is the list of
prompts passed to the collaborator, in call order, so that claims about the
number of external calls are expressible.  The source makes exactly one such
call, in the non-empty branch. -/
def generate_traced (model : String → Except String String)
    (c : GeminiChat) (query : String) : String × List String :=
  if c.documents = [] then (no_docs_message, [])
  else
    let prompt := prompt_of c query
    match model prompt with
    | Except.ok t => (t, [prompt])
    | Except.error e => (error_answer e, [prompt])

/-- Method `GeminiChat.generate`: the answer string returned to the caller. -/
def generate (model : String → Except String String)
    (c : GeminiChat) (query : String) : String :=
  (generate_traced model c query).1

/-! ## `DocumentLoader` (src/document_loader.py) -/

/-- A Python runtime value passed as `source` to `DocumentLoader.load`:
a `str`, a `bytes`, or any other object (tagged with its type name, which is
all `load` uses of it — the `type(source)` in the error message). -/
inductive Source where
  | str : String → Source
  | bytes : List Byte → Source
  | other : String → Source
deriving DecidableEq

/-- The errors `DocumentLoader` can raise, as named in the spec's error
taxonomy (§7); each carries the message/payload of the Python exception. -/
inductive LoadError where
  /-- Python `ValueError(f"Unsupported source type: ...")` — payload: the type name. -/
  | unsupportedSourceType : String → LoadError
  /-- Python `ValueError(f"Unsupported file type: {ext}")` — payload: the extension. -/
  | unsupportedFormat : String → LoadError
  /-- An exception propagated from PyPDF2 / pandas. -/
  | extractionError : String → LoadError
  /-- A `requests` exception: network failure, or `raise_for_status`. -/
  | fetchError : String → LoadError
  /-- An OS error from `open(path, "rb")` (file missing etc.). -/
  | ioError : String → LoadError
deriving DecidableEq

/-- The character encodings tried by `_load_text`. -/
inductive Encoding where
  | utf8 | cp932 | shiftJis
deriving DecidableEq

/-- The encoding priority list of `_load_text`:
`["utf-8", "cp932", "shift_jis"]`. -/
def text_encodings : List Encoding := [Encoding.utf8, Encoding.cp932, Encoding.shiftJis]

/-- The external library collaborators `DocumentLoader` delegates to, each a
function at exactly the call site where the Python code invokes it. -/
structure Libs where
  /-- Strict `data.decode(enc)`: `none` models a `UnicodeDecodeError`. -/
  dec : Encoding → List Byte → Option String
  /-- Lossy `data.decode("utf-8", errors="ignore")`: total, never raises. -/
  lossy : List Byte → String
  /-- PyPDF2 `PdfReader(BytesIO(data)).pages`, with `page.extract_text() or ""` per
  page; `Except.error` models a PyPDF2 exception (corrupt/encrypted file). -/
  pdfPages : List Byte → Except String (List String)
  /-- Pandas `pd.read_csv(StringIO(text))` followed by `df.to_markdown(index=False)`;
  `Except.error` models a pandas parse failure. -/
  csvMarkdown : String → Except String String
  /-- HTTP `requests.get(url, headers, timeout=10)`: returns
  `(status_code, response.text)`, or `Except.error` for a network exception. -/
  httpGet : String → Except String (Nat × String)
  /-- Soup `BeautifulSoup(body, "html.parser")`, the decompose loop over
  script/style/nav/footer/header/aside, and `get_text(separator="\n",
  strip=True)` — the HTML-parsing pipeline, returning its text. -/
  soupText : String → String
  /-- Filesystem `open(path, "rb").read()`: `none` models an `OSError`. -/
  readFile : String → Option (List Byte)

/-- Python `str.split(sep)` for a one-character separator, on character
lists (structurally recursive, hence kernel-evaluable). -/
def splitChar (c : Char) : List Char → List (List Char)
  | [] => [[]]
  | x :: xs =>
    if x = c then [] :: splitChar c xs
    else
      match splitChar c xs with
      | [] => [[x]]
      | g :: gs => (x :: g) :: gs

/-- Whether `pat` is an initial segment of `cs` — Python `str.startswith`. -/
def startsChars : List Char → List Char → Bool
  | [], _ => true
  | _ :: _, [] => false
  | p :: ps, c :: cs => p = c && startsChars ps cs

/-- The whitespace characters stripped by Python `str.strip()` (ASCII part;
the loader's inputs contain no exotic Unicode space). -/
def pyIsSpace (c : Char) : Bool :=
  c = ' ' || c = '\t' || c = '\n' || c = '\x0b' || c = '\x0c' || c = '\r'

/-- Python `str.strip()`. -/
def stripChars (cs : List Char) : List Char :=
  ((cs.dropWhile pyIsSpace).reverse.dropWhile pyIsSpace).reverse

/-- Python `source.startswith(("http://", "https://"))`. -/
def is_http_url (s : String) : Bool :=
  startsChars "http://".data s.data || startsChars "https://".data s.data

/-- CPython `pathlib.PurePath.name`: the final path component. -/
def path_name (s : String) : String :=
  String.mk ((splitChar '/' s.data).getLastD [])

/-- Index of the last occurrence of `c` in `cs` (Python `str.rfind`),
`none` when absent. -/
def rfindChar (c : Char) (cs : List Char) : Option Nat :=
  ((cs.enum.filter fun p => p.2 = c).map Prod.fst).getLast?

/-- CPython `pathlib.PurePath.suffix`:
`i = name.rfind('.'); name[i:] if 0 < i < len(name) - 1 else ''`. -/
def path_suffix (s : String) : String :=
  let name := path_name s
  match rfindChar '.' name.data with
  | none => ""
  | some i =>
    if 0 < i ∧ i < name.data.length - 1 then String.mk (name.data.drop i) else ""

/-- Python `str.lower()`, restricted to ASCII case folding (the only case
folding exercised by the four ASCII extensions the loader recognises). -/
def ascii_lower (s : String) : String := String.mk (s.data.map Char.toLower)

/-- Try `data.decode(e)` for each encoding `e` in `encs` in order, returning the
first strict success — the `for encoding in [...]` loop of `_load_text`. -/
def first_decode (dec : Encoding → List Byte → Option String) :
    List Encoding → List Byte → Option String
  | [], _ => none
  | e :: es, data =>
    match dec e data with
    | some s => some s
    | none => first_decode dec es data

/-- Method `DocumentLoader._load_text`: try the encodings in priority order,
fall back to lossy UTF-8 decoding.  Total: never fails. -/
def _load_text (dec : Encoding → List Byte → Option String)
    (lossy : List Byte → String) (data : List Byte) : String :=
  match first_decode dec text_encodings data with
  | some s => s
  | none => lossy data

/-- Method `DocumentLoader._load_pdf`: page texts, empty ones skipped, joined with
newlines; a parser exception propagates (labelled `extractionError`). -/
def _load_pdf (L : Libs) (data : List Byte) : Except LoadError String :=
  match L.pdfPages data with
  | Except.error e => Except.error (LoadError.extractionError e)
  | Except.ok pages => Except.ok (joinSep "\n" (pages.filter fun t => t ≠ ""))

/-- Method `DocumentLoader._load_csv`: decode via `_load_text`, then parse and
re-render through pandas; a parse exception propagates. -/
def _load_csv (L : Libs) (data : List Byte) : Except LoadError String :=
  match L.csvMarkdown (_load_text L.dec L.lossy data) with
  | Except.error e => Except.error (LoadError.extractionError e)
  | Except.ok s => Except.ok s

/-- Strip a line and keep it only when non-empty: the list comprehension
`[line.strip() for line in text.split("\n") if line.strip()]`. -/
def clean_lines (t : String) : List String :=
  ((((splitChar '\n' t.data).map stripChars).filter fun l => l ≠ []).map String.mk)

/-- Method `DocumentLoader._load_web`: GET the URL, `raise_for_status` (HTTPError
exactly when `400 <= status < 600`), parse with BeautifulSoup, drop
non-content tags, extract text, tidy blank lines. -/
def _load_web (L : Libs) (url : String) : Except LoadError String :=
  match L.httpGet url with
  | Except.error e => Except.error (LoadError.fetchError e)
  | Except.ok (status, body) =>
    if 400 ≤ status ∧ status < 600 then
      Except.error (LoadError.fetchError ("HTTP status " ++ toString status))
    else
      Except.ok (joinSep "\n" (clean_lines (L.soupText body)))

/-- Method `DocumentLoader._load_bytes`: extension dispatch.  The Python dict lookup
over the four distinct extension keys is written as the equivalent decision
chain; an unknown extension raises `ValueError` (`unsupportedFormat`). -/
def _load_bytes (L : Libs) (data : List Byte) (ext : String) :
    Except LoadError String :=
  if ext = ".pdf" then _load_pdf L data
  else if ext = ".txt" then Except.ok (_load_text L.dec L.lossy data)
  else if ext = ".md" then Except.ok (_load_text L.dec L.lossy data)
  else if ext = ".csv" then _load_csv L data
  else Except.error (LoadError.unsupportedFormat ext)

/-- Method `DocumentLoader._load_file`: read the file's bytes and dispatch. -/
def _load_file (L : Libs) (path : String) (ext : String) :
    Except LoadError String :=
  match L.readFile path with
  | none => Except.error (LoadError.ioError path)
  | some data => _load_bytes L data ext

/-- Method `DocumentLoader.load`: URL strings go to the web path; `bytes` dispatch
on the (lowercased) suffix of `filename`; other strings are treated as
filesystem paths, dispatching on their own suffix; anything else raises
`ValueError("Unsupported source type: ...")`. -/
def load (L : Libs) (source : Source) (filename : String) :
    Except LoadError String :=
  match source with
  | Source.str s =>
    if is_http_url s then
      _load_web L s
    else
      _load_file L s (ascii_lower (path_suffix s))
  | Source.bytes data =>
    _load_bytes L data (ascii_lower (path_suffix filename))
  | Source.other t =>
    Except.error (LoadError.unsupportedSourceType t)

/-! ## Spec-side vocabulary

Definitions used to state the claims: the decomposition of a string into an
ordered sequence of parts, and the constituent pieces the spec names inside
the prompt (persona preamble, rule set). -/

/-- Interleaving: `sandwich gaps parts` interleaves `gaps` and `parts`:
`g₀ ++ p₀ ++ g₁ ++ p₁ ++ ... ++ gₙ`. -/
def sandwich : List String → List String → String
  | g :: gs, p :: ps => g ++ p ++ sandwich gs ps
  | g :: _, [] => g
  | [], _ => ""

/-- The strings `parts` occur in `s` as (possibly separated) blocks, in the given
order: `s` is the interleaving of the parts with some filler strings. -/
def appears_in_order (s : String) (parts : List String) : Prop :=
  ∃ gaps : List String, gaps.length = parts.length + 1 ∧ s = sandwich gaps parts

/-- The role/persona preamble of the prompt, as the spec describes it. -/
def prompt_preamble : String :=
  "あなたは親切で知識豊富なアシスタントです。\n以下のドキュメントの内容を参考に、ユーザーの質問に日本語で回答してください。"

/-- The explicit rule set of the prompt, as the spec describes it. -/
def prompt_rules : String :=
  "## ルール\n- ドキュメントの内容に基づいて正確に回答してください\n- ドキュメントに情報がない場合は、その旨を伝えてください\n- 回答は分かりやすく、簡潔にしてください\n- 必要に応じて箇条書きや見出しを使ってください"

/-- Does a loader result carry the `UnsupportedSourceType` label? -/
def is_unsupported_source_error : Except LoadError String → Bool
  | Except.error (LoadError.unsupportedSourceType _) => true
  | _ => false

/-- Does a loader result carry the `FetchError` label? -/
def is_fetch_error : Except LoadError String → Bool
  | Except.error (LoadError.fetchError _) => true
  | _ => false

/-! ## Concrete collaborator stubs (for witnesses and counterexamples) -/

/-- A strict decoder stub: decodes nothing but the CP932 bytes
`93 FA` (the character `日`), which are invalid as UTF-8 (`0x93` is a lone
continuation byte). -/
def stub_dec : Encoding → List Byte → Option String := fun e data =>
  match e with
  | Encoding.cp932 => if data = [147, 250] then some "日" else none
  | _ => none

/-- A `Libs` stub whose collaborators all do nothing. -/
def stub_libs0 : Libs where
  dec := fun _ _ => none
  lossy := fun _ => ""
  pdfPages := fun _ => Except.ok []
  csvMarkdown := fun t => Except.ok t
  httpGet := fun _ => Except.error "unreachable"
  soupText := fun b => b
  readFile := fun _ => none

/-- A `Libs` stub with a file `notes.txt` containing the UTF-8 bytes of
`hello` on its filesystem. -/
def stub_libs_file : Libs :=
  { stub_libs0 with
    dec := fun e data =>
      match e with
      | Encoding.utf8 =>
        if data = [104, 101, 108, 108, 111] then some "hello" else none
      | _ => none
    readFile := fun p =>
      if p = "notes.txt" then some [104, 101, 108, 108, 111] else none }

/-- A `Libs` stub whose HTTP collaborator answers status 304 (non-2xx,
outside the 4xx/5xx range) with an empty body. -/
def stub_libs_304 : Libs :=
  { stub_libs0 with httpGet := fun _ => Except.ok (304, "") }

/-- A `Libs` stub whose HTTP collaborator answers status 404. -/
def stub_libs_404 : Libs :=
  { stub_libs0 with httpGet := fun _ => Except.ok (404, "not found") }

/-- A model-client stub that fails every call with message `boom`. -/
def stub_model_err : String → Except String String :=
  fun _ => Except.error "boom"

/-- A model-client stub that answers every call with `ok-answer`. -/
def stub_model_ok : String → Except String String :=
  fun _ => Except.ok "ok-answer"

/-! ## Helper lemmas -/

theorem string_append_assoc (a b c : String) : a ++ b ++ c = a ++ (b ++ c) := by
  rcases a with ⟨la⟩; rcases b with ⟨lb⟩; rcases c with ⟨lc⟩
  show String.mk ((la ++ lb) ++ lc) = String.mk (la ++ (lb ++ lc))
  rw [List.append_assoc]

theorem sandwich_cons (g p : String) (gs ps : List String) :
    sandwich (g :: gs) (p :: ps) = g ++ p ++ sandwich gs ps := rfl

theorem joinSep_cons2 (sep x y : String) (rest : List String) :
    joinSep sep (x :: y :: rest) = x ++ sep ++ joinSep sep (y :: rest) := rfl

/-- Interleaving a non-empty part list with `"\n\n"` gaps inside and given
strings around it produces exactly the blank-line-joined block. -/
theorem sandwich_ctx (secs : List String) (gq q gend : String) (h : secs ≠ []) :
    ∀ g : String,
      sandwich (g :: (List.replicate (secs.length - 1) "\n\n" ++ [gq, gend])) (secs ++ [q])
        = g ++ (joinSep "\n\n" secs ++ (gq ++ (q ++ gend))) := by
  induction secs with
  | nil => exact absurd rfl h
  | cons x rest ih =>
    intro g
    cases rest with
    | nil =>
      simp [sandwich, joinSep, string_append_assoc]
    | cons y t =>
      have h2 := ih (by simp) "\n\n"
      simp only [List.length_cons, Nat.add_sub_cancel] at h2 ⊢
      simp only [List.cons_append] at h2
      simp only [List.replicate_succ, List.cons_append]
      rw [sandwich_cons, h2, joinSep_cons2]
      simp [string_append_assoc]

set_option maxRecDepth 40000 in
/-- The fixed prompt text before the context hole is exactly the persona
preamble, a blank line, the rule set, a blank line, and the context
heading. -/
theorem prompt_head_split :
    prompt_head = prompt_preamble ++ ("\n\n" ++ (prompt_rules ++ "\n\n## ドキュメント\n")) := by
  decide

/-- The complete prompt built by `generate` on a non-empty document list is
an interleaving of the preamble, the rule set, the document sections (with
`"\n\n"` between consecutive sections) and the query, in that order. -/
theorem prompt_of_decomp (c : GeminiChat) (q : String) (h : c.documents ≠ []) :
    prompt_of c q
      = sandwich
          ("" :: "\n\n" :: "\n\n## ドキュメント\n" ::
            (List.replicate (c.documents.length - 1) "\n\n" ++ [prompt_mid, prompt_tail]))
          (prompt_preamble :: prompt_rules :: (context_parts c.documents ++ [q])) := by
  have hs : context_parts c.documents ≠ [] := by
    simpa [context_parts] using h
  have hlen : (context_parts c.documents).length = c.documents.length := by
    simp [context_parts]
  rw [sandwich_cons, sandwich_cons, ← hlen,
    sandwich_ctx (context_parts c.documents) prompt_mid q prompt_tail hs]
  rw [prompt_of, build_prompt, prompt_head_split]
  have hemp : ∀ s : String, "" ++ s = s := fun s => rfl
  simp [hemp, string_append_assoc]

theorem dictRemove_absent (k : String) (l : List (String × String))
    (h : k ∉ l.map Prod.fst) : dictRemove k l = l := by
  induction l with
  | nil => rfl
  | cons p rest ih =>
    obtain ⟨k', v'⟩ := p
    simp only [List.map_cons, List.mem_cons, not_or] at h
    obtain ⟨h1, h2⟩ := h
    have h1' : k' ≠ k := fun hh => h1 hh.symm
    simp [dictRemove, h1', ih h2]

theorem dictRemove_dictInsert (k v : String) (l : List (String × String))
    (h : k ∉ l.map Prod.fst) : dictRemove k (dictInsert k v l) = l := by
  induction l with
  | nil => simp [dictInsert, dictRemove]
  | cons p rest ih =>
    obtain ⟨k', v'⟩ := p
    simp only [List.map_cons, List.mem_cons, not_or] at h
    obtain ⟨h1, h2⟩ := h
    have h1' : k' ≠ k := fun hh => h1 hh.symm
    simp [dictInsert, dictRemove, h1', ih h2]

theorem dictInsert_keys_of_mem (k v : String) (l : List (String × String))
    (h : k ∈ l.map Prod.fst) :
    (dictInsert k v l).map Prod.fst = l.map Prod.fst := by
  induction l with
  | nil => simp at h
  | cons p rest ih =>
    obtain ⟨k', v'⟩ := p
    by_cases hk : k' = k
    · simp [dictInsert, hk]
    · have hm : k ∈ rest.map Prod.fst := by
        simp only [List.map_cons, List.mem_cons] at h
        rcases h with h' | h'
        · exact absurd h'.symm hk
        · exact h'
      simp [dictInsert, hk, ih hm]

theorem dictGet_dictInsert_self (k v : String) (l : List (String × String)) :
    dictGet k (dictInsert k v l) = some v := by
  induction l with
  | nil => simp [dictInsert, dictGet]
  | cons p rest ih =>
    obtain ⟨k', v'⟩ := p
    by_cases hk : k' = k
    · simp [dictInsert, dictGet, hk]
    · simp [dictInsert, dictGet, hk, ih]

theorem dictGet_dictInsert_other (k v k' : String) (l : List (String × String))
    (h : k' ≠ k) : dictGet k' (dictInsert k v l) = dictGet k' l := by
  induction l with
  | nil =>
    have : k ≠ k' := fun hh => h hh.symm
    simp [dictInsert, dictGet, this]
  | cons p rest ih =>
    obtain ⟨a, b⟩ := p
    by_cases ha : a = k
    · subst ha
      have hne : a ≠ k' := fun hh => h hh.symm
      simp [dictInsert, dictGet, hne]
    · simp [dictInsert, dictGet, ha, ih]

/-! ## Claim theorems -/

/-- C1: on a session state with an empty document collection, `generate`
returns the fixed guidance string for every query and every model client,
and passes no prompt at all to the model-completion collaborator. -/
theorem generate_empty_docs_no_model_call
    (model : String → Except String String) (c : GeminiChat) (q : String)
    (h : c.documents = []) :
    generate model c q = no_docs_message ∧ (generate_traced model c q).2 = [] := by
  simp [generate, generate_traced, h]

/-- Witness for C1 at a concrete state, query and stub model client. -/
theorem generate_empty_docs_no_model_call_witness :
    generate stub_model_ok ⟨[]⟩ "こんにちは" = no_docs_message ∧
      (generate_traced stub_model_ok ⟨[]⟩ "こんにちは").2 = [] :=
  generate_empty_docs_no_model_call stub_model_ok ⟨[]⟩ "こんにちは" rfl

/-- C3: `generate` is total (a Lean function into `String`), and whenever
the model-completion collaborator fails — with any error `e` — the failure
is caught and converted into the in-band error answer string, instead of
propagating. -/
theorem generate_catches_model_error
    (model : String → Except String String) (c : GeminiChat) (q e : String)
    (hne : c.documents ≠ [])
    (he : model (prompt_of c q) = Except.error e) :
    generate model c q = error_answer e := by
  simp [generate, generate_traced, hne, he]

/-- Witness for C3 with a stub model client that always raises. -/
theorem generate_catches_model_error_witness :
    generate stub_model_err ⟨[("a.txt", "hello")]⟩ "質問" = error_answer "boom" :=
  generate_catches_model_error stub_model_err ⟨[("a.txt", "hello")]⟩ "質問" "boom"
    (by decide) rfl

/-- C7 counterexample: when the key is already present, `add_document`
followed by `remove_document` with the same key does NOT restore the prior
`list_documents()` snapshot — the pre-existing binding is lost. -/
theorem add_remove_same_key_not_roundtrip :
    GeminiChat.get_document_list
        (GeminiChat.remove_document
          (GeminiChat.add_document ⟨[("a.txt", "old")]⟩ "a.txt" "new") "a.txt")
      ≠ GeminiChat.get_document_list ⟨[("a.txt", "old")]⟩ := by
  decide

/-- C7 (amended): for every key NOT already present in the collection,
`add_document` followed by `remove_document` with that key restores the
collection — and hence the `list_documents()` snapshot — exactly. -/
theorem add_remove_fresh_key_roundtrip (c : GeminiChat) (k v : String)
    (h : k ∉ GeminiChat.get_document_list c) :
    GeminiChat.remove_document (GeminiChat.add_document c k v) k = c ∧
    GeminiChat.get_document_list
        (GeminiChat.remove_document (GeminiChat.add_document c k v) k)
      = GeminiChat.get_document_list c := by
  obtain ⟨docs⟩ := c
  have h' : k ∉ docs.map Prod.fst := h
  have hd := dictRemove_dictInsert k v docs h'
  refine ⟨?_, ?_⟩
  · simp [GeminiChat.add_document, GeminiChat.remove_document, hd]
  · simp [GeminiChat.add_document, GeminiChat.remove_document,
      GeminiChat.get_document_list, hd]

/-- Witness for the amended C7 at a concrete state and fresh key. -/
theorem add_remove_fresh_key_roundtrip_witness :
    GeminiChat.remove_document
        (GeminiChat.add_document ⟨[("a.txt", "hello")]⟩ "b.md" "x") "b.md"
      = (⟨[("a.txt", "hello")]⟩ : GeminiChat) ∧
    GeminiChat.get_document_list
        (GeminiChat.remove_document
          (GeminiChat.add_document ⟨[("a.txt", "hello")]⟩ "b.md" "x") "b.md")
      = GeminiChat.get_document_list ⟨[("a.txt", "hello")]⟩ :=
  add_remove_fresh_key_roundtrip ⟨[("a.txt", "hello")]⟩ "b.md" "x" (by decide)

/-- C8: `remove_document` with a key absent from the collection leaves the
whole session state — keys, contents and their order — unchanged (and, being
a total Lean function, raises nothing). -/
theorem remove_document_absent_noop (c : GeminiChat) (k : String)
    (h : k ∉ GeminiChat.get_document_list c) :
    GeminiChat.remove_document c k = c := by
  obtain ⟨docs⟩ := c
  have h' : k ∉ docs.map Prod.fst := h
  simp [GeminiChat.remove_document, dictRemove_absent k docs h']

/-- Witness for C8 at a concrete state and absent key. -/
theorem remove_document_absent_noop_witness :
    GeminiChat.remove_document ⟨[("a.txt", "hello")]⟩ "zzz"
      = (⟨[("a.txt", "hello")]⟩ : GeminiChat) :=
  remove_document_absent_noop ⟨[("a.txt", "hello")]⟩ "zzz" (by decide)

/-- C10: `add_document` with an already-present key overwrites the content,
keeps the key sequence returned by `get_document_list` (and so the order of
the labelled section headers in the context block) unchanged, and leaves
every other key's content unchanged. -/
theorem add_document_overwrite_keeps_order (c : GeminiChat) (k v : String)
    (h : k ∈ GeminiChat.get_document_list c) :
    GeminiChat.get_document_list (GeminiChat.add_document c k v)
      = GeminiChat.get_document_list c ∧
    dictGet k (GeminiChat.add_document c k v).documents = some v ∧
    (∀ k', k' ≠ k →
      dictGet k' (GeminiChat.add_document c k v).documents = dictGet k' c.documents) ∧
    (GeminiChat.add_document c k v).documents.map (fun d => "=== " ++ d.1 ++ " ===\n")
      = c.documents.map (fun d => "=== " ++ d.1 ++ " ===\n") := by
  obtain ⟨docs⟩ := c
  have h' : k ∈ docs.map Prod.fst := h
  have hkeys := dictInsert_keys_of_mem k v docs h'
  refine ⟨?_, ?_, ?_, ?_⟩
  · simpa [GeminiChat.add_document, GeminiChat.get_document_list] using hkeys
  · exact dictGet_dictInsert_self k v docs
  · exact fun k' hk' => dictGet_dictInsert_other k v k' docs hk'
  · have hfun : (fun d : String × String => "=== " ++ d.1 ++ " ===\n")
        = (fun s => "=== " ++ s ++ " ===\n") ∘ Prod.fst := rfl
    show (dictInsert k v docs).map (fun d => "=== " ++ d.1 ++ " ===\n")
      = docs.map (fun d => "=== " ++ d.1 ++ " ===\n")
    rw [hfun, ← List.map_map, ← List.map_map, hkeys]

/-- Witness for C10 at a concrete two-document state. -/
theorem add_document_overwrite_keeps_order_witness :
    GeminiChat.get_document_list
        (GeminiChat.add_document ⟨[("a.txt", "old"), ("b.md", "bbb")]⟩ "a.txt" "new")
      = GeminiChat.get_document_list ⟨[("a.txt", "old"), ("b.md", "bbb")]⟩ ∧
    dictGet "a.txt"
        (GeminiChat.add_document ⟨[("a.txt", "old"), ("b.md", "bbb")]⟩ "a.txt" "new").documents
      = some "new" ∧
    dictGet "b.md"
        (GeminiChat.add_document ⟨[("a.txt", "old"), ("b.md", "bbb")]⟩ "a.txt" "new").documents
      = dictGet "b.md" (⟨[("a.txt", "old"), ("b.md", "bbb")]⟩ : GeminiChat).documents := by
  have w := add_document_overwrite_keeps_order
    ⟨[("a.txt", "old"), ("b.md", "bbb")]⟩ "a.txt" "new" (by decide)
  exact ⟨w.1, w.2.1, w.2.2.1 "b.md" (by decide)⟩

/-- C2: on a non-empty document collection, `generate` passes exactly one
prompt to the model-completion collaborator; that prompt contains the
blank-line-separated context block of all document sections, and the
persona preamble, the rule set, every document's labelled section (header
with the key, followed by the full content) in insertion order, and the
literal query occur in it in that fixed order. -/
theorem generate_prompt_structure
    (model : String → Except String String) (c : GeminiChat) (q : String)
    (h : c.documents ≠ []) :
    (generate_traced model c q).2.length = 1 ∧
    ∀ p ∈ (generate_traced model c q).2,
      (∃ pre post : String,
          p = pre ++ (joinSep "\n\n"
            (c.documents.map (fun d => "=== " ++ d.1 ++ " ===\n" ++ d.2)) ++ post)) ∧
      appears_in_order p
        (prompt_preamble :: prompt_rules ::
          (c.documents.map (fun d => "=== " ++ d.1 ++ " ===\n" ++ d.2) ++ [q])) := by
  have hsent : (generate_traced model c q).2 = [prompt_of c q] := by
    cases hm : model (prompt_of c q) <;> simp [generate_traced, h, hm]
  refine ⟨by rw [hsent]; rfl, ?_⟩
  intro p hp
  rw [hsent, List.mem_singleton] at hp
  subst hp
  have hmap : c.documents.map (fun d => "=== " ++ d.1 ++ " ===\n" ++ d.2)
      = context_parts c.documents := rfl
  constructor
  · refine ⟨prompt_head, prompt_mid ++ (q ++ prompt_tail), ?_⟩
    rw [hmap, prompt_of, build_prompt]
    simp [string_append_assoc]
  · refine ⟨"" :: "\n\n" :: "\n\n## ドキュメント\n" ::
      (List.replicate (c.documents.length - 1) "\n\n" ++ [prompt_mid, prompt_tail]),
      ?_, ?_⟩
    · have hn : 0 < c.documents.length := List.length_pos.mpr h
      simp [List.length_append, List.length_replicate]
      omega
    · rw [hmap]
      exact prompt_of_decomp c q h

/-- Witness for C2 at a concrete two-document state and query. -/
theorem generate_prompt_structure_witness :
    (generate_traced stub_model_ok
        ⟨[("a.txt", "hello"), ("b.md", "world")]⟩ "What?").2.length = 1 ∧
    appears_in_order
      (prompt_of ⟨[("a.txt", "hello"), ("b.md", "world")]⟩ "What?")
      [prompt_preamble, prompt_rules,
        "=== a.txt ===\nhello", "=== b.md ===\nworld", "What?"] := by
  have w := generate_prompt_structure stub_model_ok
    ⟨[("a.txt", "hello"), ("b.md", "world")]⟩ "What?" (by decide)
  refine ⟨w.1, ?_⟩
  have hmem : prompt_of ⟨[("a.txt", "hello"), ("b.md", "world")]⟩ "What?"
      ∈ (generate_traced stub_model_ok
          ⟨[("a.txt", "hello"), ("b.md", "world")]⟩ "What?").2 :=
    List.mem_singleton.mpr rfl
  have h2 := (w.2 _ hmem).2
  have hparts :
      (prompt_preamble :: prompt_rules ::
        ((⟨[("a.txt", "hello"), ("b.md", "world")]⟩ : GeminiChat).documents.map
            (fun d => "=== " ++ d.1 ++ " ===\n" ++ d.2) ++ ["What?"]))
      = [prompt_preamble, prompt_rules,
          "=== a.txt ===\nhello", "=== b.md ===\nworld", "What?"] := by
    decide
  rw [hparts] at h2
  exact h2

/-- C4 counterexample: a string source that is not an `http(s)://` URL is
treated as a filesystem path and loaded (here successfully), not rejected
with `UnsupportedSourceType`. -/
theorem load_string_path_not_unsupported :
    load stub_libs_file (Source.str "notes.txt") "" = Except.ok "hello" ∧
    is_unsupported_source_error
        (load stub_libs_file (Source.str "notes.txt") "") = false := by
  constructor <;> rfl

/-- C4 (amended): `load` fails with `UnsupportedSourceType` exactly for
sources that are neither a string nor a byte sequence; a non-URL string is
instead treated as a filesystem path. -/
theorem load_other_source_unsupported (L : Libs) (t filename : String) :
    load L (Source.other t) filename
      = Except.error (LoadError.unsupportedSourceType t) := rfl

/-- C5: `_load_text` tries the strict decoders in the fixed priority order
UTF-8, CP932, Shift-JIS, returns the first strict success, falls back to
the lossy (substituting) decode when all three fail, and — being a total
Lean function into `String` — never raises.  In particular a byte sequence
the UTF-8 decoder rejects but the CP932 decoder accepts decodes to the
CP932 text (second conjunct). -/
theorem load_text_encoding_fallback
    (dec : Encoding → List Byte → Option String)
    (lossy : List Byte → String) (data : List Byte) :
    (∀ s, dec Encoding.utf8 data = some s → _load_text dec lossy data = s) ∧
    (dec Encoding.utf8 data = none →
      ∀ s, dec Encoding.cp932 data = some s → _load_text dec lossy data = s) ∧
    (dec Encoding.utf8 data = none → dec Encoding.cp932 data = none →
      ∀ s, dec Encoding.shiftJis data = some s → _load_text dec lossy data = s) ∧
    (dec Encoding.utf8 data = none → dec Encoding.cp932 data = none →
      dec Encoding.shiftJis data = none →
      _load_text dec lossy data = lossy data) := by
  refine ⟨?_, ?_, ?_, ?_⟩ <;> intros <;>
    simp_all [_load_text, first_decode, text_encodings]

/-- Witness for C5: the bytes `93 FA` are invalid UTF-8 and decode (via the
CP932 decoder stub) to `日` without any failure. -/
theorem load_text_encoding_fallback_witness :
    _load_text stub_dec (fun _ => "") [147, 250] = "日" :=
  (load_text_encoding_fallback stub_dec (fun _ => "") [147, 250]).2.1 rfl "日" rfl

/-- C6: for byte sources, `load` dispatches on the lowercased suffix of the
filename hint: exactly `.pdf`, `.txt`, `.md`, `.csv` select their
extractors, and any other suffix fails with `UnsupportedFormat`. -/
theorem load_bytes_extension_dispatch (L : Libs) (data : List Byte)
    (filename : String) :
    (ascii_lower (path_suffix filename) ∉ [".pdf", ".txt", ".md", ".csv"] →
      load L (Source.bytes data) filename
        = Except.error
            (LoadError.unsupportedFormat (ascii_lower (path_suffix filename)))) ∧
    (ascii_lower (path_suffix filename) = ".pdf" →
      load L (Source.bytes data) filename = _load_pdf L data) ∧
    ((ascii_lower (path_suffix filename) = ".txt" ∨
        ascii_lower (path_suffix filename) = ".md") →
      load L (Source.bytes data) filename
        = Except.ok (_load_text L.dec L.lossy data)) ∧
    (ascii_lower (path_suffix filename) = ".csv" →
      load L (Source.bytes data) filename = _load_csv L data) := by
  refine ⟨fun h => ?_, fun h => ?_, fun h => ?_, fun h => ?_⟩
  · simp only [List.mem_cons, List.not_mem_nil, or_false, not_or] at h
    obtain ⟨h1, h2, h3, h4⟩ := h
    simp [load, _load_bytes, h1, h2, h3, h4]
  · simp [load, _load_bytes, h]
  · rcases h with h | h <;> simp [load, _load_bytes, h]
  · simp [load, _load_bytes, h]

/-- Witness for C6: a `.exe` filename hint is rejected with
`UnsupportedFormat`, and a `.TXT` hint (case-insensitively) selects the
text extractor. -/
theorem load_bytes_extension_dispatch_witness :
    load stub_libs0 (Source.bytes [104]) "doc.exe"
      = Except.error (LoadError.unsupportedFormat ".exe") ∧
    load stub_libs0 (Source.bytes [104]) "doc.TXT"
      = Except.ok (_load_text stub_libs0.dec stub_libs0.lossy [104]) :=
  ⟨(load_bytes_extension_dispatch stub_libs0 [104] "doc.exe").1 (by decide),
   (load_bytes_extension_dispatch stub_libs0 [104] "doc.TXT").2.2.1
     (Or.inl (by decide))⟩

/-- C9 counterexample: a non-2xx status outside the 4xx/5xx range — here
304 — does not fail at all: `raise_for_status` only raises for
`400 <= status < 600`, so `load` proceeds to scrape the body. -/
theorem load_web_304_no_fetch_error :
    load stub_libs_304 (Source.str "http://example.com") "" = Except.ok "" ∧
    is_fetch_error
        (load stub_libs_304 (Source.str "http://example.com") "") = false := by
  constructor <;> rfl

/-- C9 (amended): `load` on a URL fails with the labelled `FetchError` for
every network-level error of the HTTP collaborator and for every response
status in the 4xx/5xx range; statuses in the 1xx/3xx range are not
rejected. -/
theorem load_web_fetch_error (L : Libs) (url fn : String)
    (hurl : is_http_url url = true) :
    (∀ e, L.httpGet url = Except.error e →
        load L (Source.str url) fn = Except.error (LoadError.fetchError e)) ∧
    (∀ status body, L.httpGet url = Except.ok (status, body) →
        400 ≤ status → status < 600 →
        load L (Source.str url) fn
          = Except.error
              (LoadError.fetchError ("HTTP status " ++ toString status))) := by
  constructor
  · intro e he
    simp [load, hurl, _load_web, he]
  · intro status body hok h4 h6
    simp [load, hurl, _load_web, hok, h4, h6]

/-- Witness for the amended C9: a 404 response yields `FetchError`. -/
theorem load_web_fetch_error_witness :
    load stub_libs_404 (Source.str "http://example.com") ""
      = Except.error (LoadError.fetchError ("HTTP status " ++ toString 404)) :=
  (load_web_fetch_error stub_libs_404 "http://example.com" "" rfl).2
    404 "not found" rfl (by decide) (by decide)

end GeminiBot
